import Mathlib

/-!
Verification of the conversational Azure-provisioning agent
(`agent.py`, `nlp_processor.py`, `bot.py`, `models.py`, `config.py`).

The Python source is shallowly embedded below: every pure method becomes a
Lean function; the agent's mutable `conversation_contexts` dict becomes an
explicit association-list state threaded through the functions; Python
exceptions become `Except`; the external collaborators (the Azure client's
`provision_resource` / `list_resources`) and the relevant configuration
values become fields of an `Env` parameter, and each call to
`provision_resource` is recorded in an explicit trace so that "the
provisioning collaborator is invoked exactly once" is a statement about the
returned trace.  `datetime` values are modelled as whole hours since an
epoch (`hour` attribute = `t % 24`), which is all the precision the source's
time arithmetic observes.
-/

/-! ## String helpers mirroring the Python primitives used by the source -/

/-- Python `str.lower()` (the source only feeds ASCII through it). -/
def pyLower (s : String) : String := ⟨s.data.map Char.toLower⟩

/-- Python `str.upper()`. -/
def pyUpper (s : String) : String := ⟨s.data.map Char.toUpper⟩

/-- `needle` occurs at the front of `hay`. -/
def listPrefixB : List Char → List Char → Bool
  | [], _ => true
  | _ :: _, [] => false
  | a :: as, b :: bs => a = b && listPrefixB as bs

/-- `needle` occurs somewhere in `hay`. -/
def listInfixB (needle : List Char) : List Char → Bool
  | [] => listPrefixB needle []
  | hay@(_ :: rest) => listPrefixB needle hay || listInfixB needle rest

/-- Python `needle in hay` substring test. -/
def containsSub (hay needle : String) : Bool := listInfixB needle.data hay.data

/-- Python `str.title()` on the strings the source feeds it (ASCII): a cased
character is uppercased when the previous character is not a letter and
lowercased otherwise. -/
def pyTitleAux : Bool → List Char → List Char
  | _, [] => []
  | prevAlpha, c :: cs =>
    (if c.isAlpha then (if prevAlpha then c.toLower else c.toUpper) else c)
      :: pyTitleAux c.isAlpha cs

def pyTitle (s : String) : String := ⟨pyTitleAux false s.data⟩

/-- The source's `x.replace("_", " ").title()` idiom (used for both region
display names and resource-type display names). -/
def pyDisplay (s : String) : String :=
  pyTitle ⟨s.data.map (fun c => if c = '_' then ' ' else c)⟩

/-- The whitespace class of Python's regex `\s` (ASCII part). -/
def isWs (c : Char) : Bool :=
  c = ' ' || c = '\t' || c = '\n' || c = '\r' || c = '\x0b' || c = '\x0c'

/-- Character class `[a-zA-Z0-9\-_]` of the name/project patterns. -/
def isTokenChar (c : Char) : Bool := c.isAlphanum || c = '-' || c = '_'

/-- Character class `\w` (ASCII part) of the username pattern. -/
def isWordChar (c : Char) : Bool := c.isAlphanum || c = '_'

/-- Drop a literal keyword from the front of `s`, comparing characters
case-insensitively (regex compiled with `re.IGNORECASE`). -/
def dropKeywordCI : List Char → List Char → Option (List Char)
  | [], s => some s
  | _ :: _, [] => none
  | k :: ks, c :: cs =>
    if c.toLower = k.toLower then dropKeywordCI ks cs else none

/-- `p+`: one or more characters satisfying `p` (greedy), returning the
matched span and the rest; fails on zero matches. -/
def span1 (p : Char → Bool) (s : List Char) : Option (List Char × List Char) :=
  match s.span p with
  | (a, b) => if a.isEmpty then none else some (a, b)

/-- `re.search` position scan: try the matcher at every start position, left
to right, and return the first success. -/
def searchFrom {α : Type} (f : List Char → Option α) : List Char → Option α
  | [] => f []
  | s@(_ :: rest) =>
    match f s with
    | some a => some a
    | none => searchFrom f rest

/-! ## Enumerations from `models.py` -/

inductive ResourceType
  | virtual_machine | storage_account | web_app | sql_database | cosmos_db
  | virtual_network | load_balancer | container_instance | aks_cluster
  | cognitive_service | machine_learning_workspace
deriving DecidableEq

/-- The string value of the `ResourceType` enum member. -/
def ResourceType.value : ResourceType → String
  | .virtual_machine => "virtual_machine"
  | .storage_account => "storage_account"
  | .web_app => "web_app"
  | .sql_database => "sql_database"
  | .cosmos_db => "cosmos_db"
  | .virtual_network => "virtual_network"
  | .load_balancer => "load_balancer"
  | .container_instance => "container_instance"
  | .aks_cluster => "aks_cluster"
  | .cognitive_service => "cognitive_service"
  | .machine_learning_workspace => "machine_learning_workspace"

inductive VMType
  | windows | linux
deriving DecidableEq

inductive StorageAccountType
  | standard_lrs | standard_grs | standard_ragrs | premium_lrs
deriving DecidableEq

inductive WebAppRuntime
  | node_js | python | dotnet | java | php | ruby
deriving DecidableEq

inductive ProvisioningStatus
  | pending | in_progress | completed | failed | cancelled
deriving DecidableEq

/-- Values stored in the `parameters` dict of a request (the source stores
enum members and plain strings there). -/
inductive ParamValue
  | vmType (v : VMType)
  | storageType (v : StorageAccountType)
  | runtime (v : WebAppRuntime)
  | str (s : String)
deriving DecidableEq

/-- A Python dict of parameters, as an insertion-ordered association list;
assigning to an existing key overwrites in place (dict semantics). -/
def dictInsert (d : List (String × ParamValue)) (k : String) (v : ParamValue) :
    List (String × ParamValue) :=
  if d.any (fun kv => kv.1 = k) then
    d.map (fun kv => if kv.1 = k then (k, v) else kv)
  else d ++ [(k, v)]

def hasKey (d : List (String × ParamValue)) (k : String) : Bool :=
  d.any (fun kv => kv.1 = k)

/-- `models.ResourceRequest` (pydantic).  `request_id` and `timestamp` are
assigned by default factories and never read by the code under study, so
they are omitted from the embedding. -/
structure ResourceRequest where
  resource_type : ResourceType
  name : String
  location : Option String := none
  resource_group : Option String := none
  tags : Option (List (String × String)) := none
  parameters : List (String × ParamValue) := []
  user_id : String
deriving DecidableEq

/-- `models.ProvisioningResponse` (fields the agent reads). -/
structure ProvisioningResponse where
  request_id : String := ""
  status : ProvisioningStatus
  resource_id : Option String := none
  resource_name : String
  resource_type : ResourceType
  location : String
  resource_group : String := ""
  message : String
  error_details : Option String := none
deriving DecidableEq

/-- `models.ConversationContext`; timestamps are hours since the epoch. -/
structure ConversationContext where
  user_id : String
  conversation_id : String
  current_request : Option ResourceRequest := none
  pending_questions : List String := []
  collected_parameters : List (String × String) := []
  created_at : Nat := 0
  last_activity : Nat := 0
deriving DecidableEq

structure SuggestedAction where
  type : String
  title : String
  value : String
deriving DecidableEq

/-- `models.BotMessage` (fields the agent sets). -/
structure BotMessage where
  text : String
  suggested_actions : Option (List SuggestedAction) := none
deriving DecidableEq

/-! ## `nlp_processor.py` -/

/-- `NLPProcessor.resource_keywords`, in dict insertion order. -/
def resourceKeywords : List (ResourceType × List String) :=
  [ (.virtual_machine,
      ["vm", "virtual machine", "server", "instance", "compute",
       "windows server", "linux server", "ubuntu", "centos"]),
    (.storage_account,
      ["storage", "storage account", "blob", "file storage",
       "queue", "table storage", "data storage"]),
    (.web_app,
      ["web app", "app service", "website", "web application",
       "node.js", "python", "dotnet", "java", "php", "ruby"]),
    (.sql_database,
      ["sql", "database", "sql database", "sql server",
       "relational database", "rdbms"]),
    (.cosmos_db,
      ["cosmos", "cosmos db", "nosql", "document database",
       "mongodb", "cassandra", "table api"]),
    (.virtual_network,
      ["vnet", "virtual network", "network", "subnet",
       "network security group", "nsg"]),
    (.container_instance,
      ["container", "aci", "container instance", "docker",
       "containerized", "microservice"]),
    (.aks_cluster,
      ["aks", "kubernetes", "k8s", "container cluster",
       "orchestration", "microservices"]) ]

/-- All keyword phrases of the table, flattened. -/
def allResourceKeywords : List String := (resourceKeywords.map Prod.snd).flatten

/-- `NLPProcessor.extract_resource_type`: first table entry with any phrase
occurring as a substring of the lowercased text. -/
def extractResourceType (text : String) : Option ResourceType :=
  let tl := pyLower text
  (resourceKeywords.find? (fun p => p.2.any (fun kw => containsSub tl kw))).map Prod.fst

/-- `NLPProcessor.vm_size_patterns`, in dict insertion order. -/
def vmSizePatterns : List (String × List String) :=
  [ ("basic", ["b1s", "b1ms", "b2s", "b2ms"]),
    ("standard", ["d2s", "d4s", "d8s", "d16s"]),
    ("memory_optimized", ["e2s", "e4s", "e8s", "e16s"]),
    ("compute_optimized", ["f2s", "f4s", "f8s", "f16s"]) ]

/-- `NLPProcessor.location_patterns`, in dict insertion order. -/
def locationPatterns : List (String × List String) :=
  [ ("east_us", ["east us", "eastus", "virginia"]),
    ("west_us", ["west us", "westus", "california"]),
    ("central_us", ["central us", "centralus", "iowa"]),
    ("north_europe", ["north europe", "northeurope", "ireland"]),
    ("west_europe", ["west europe", "westeurope", "netherlands"]) ]

/-- `NLPProcessor.extract_location`: canonical name of the first entry with a
matching alias, rendered through `replace("_", " ").title()`. -/
def extractLocation (text : String) : Option String :=
  let tl := pyLower text
  (locationPatterns.find? (fun p => p.2.any (fun pat => containsSub tl pat))).map
    (fun p => pyDisplay p.1)

def digitsToNat (ds : List Char) : Nat :=
  ds.foldl (fun n c => n * 10 + (c.toNat - 48)) 0

/-- One attempt of the RAM regex `(\d+)\s*(gb|gigabytes?|g)` at a fixed
position: a maximal digit run, optional whitespace, then an alternative that
in every branch begins with `g` (so `g` alone decides the match). -/
def tryRamAt (s : List Char) : Option Nat := do
  let (ds, rest) ← span1 Char.isDigit s
  let rest2 := (rest.span isWs).2
  match rest2 with
  | c :: _ => if c = 'g' then some (digitsToNat ds) else none
  | [] => none

/-- One attempt of `username[:\s]+(\w+)` at a fixed position. -/
def tryUsernameAt (s : List Char) : Option String := do
  let rest ← dropKeywordCI "username".data s
  let (_, rest2) ← span1 (fun c => c = ':' || isWs c) rest
  let (tok, _) ← span1 isWordChar rest2
  some ⟨tok⟩

/-- One attempt of `project[:\s]+([a-zA-Z0-9\-_]+)` at a fixed position. -/
def tryProjectAt (s : List Char) : Option String := do
  let rest ← dropKeywordCI "project".data s
  let (_, rest2) ← span1 (fun c => c = ':' || isWs c) rest
  let (tok, _) ← span1 isTokenChar rest2
  some ⟨tok⟩

/-- One attempt of a name pattern `kw\s+(?:it\s+)?([a-zA-Z0-9\-_]+)` at a
fixed position (`optIt` selects whether the optional `it\s+` group is part
of the pattern).  When the optional group matches but no token follows, the
regex engine backtracks and captures starting at the `it` itself. -/
def tryNameAt (kw : String) (optIt : Bool) (s : List Char) : Option String := do
  let rest ← dropKeywordCI kw.data s
  let (_, rest) ← span1 isWs rest
  let tokenFrom : List Char → Option String := fun r =>
    match span1 isTokenChar r with
    | some (tok, _) => some ⟨tok⟩
    | none => none
  if optIt then
    match dropKeywordCI ['i', 't'] rest with
    | some r2 =>
      match span1 isWs r2 with
      | some (_, r3) =>
        match tokenFrom r3 with
        | some t => some t
        | none => tokenFrom rest
      | none => tokenFrom rest
    | none => tokenFrom rest
  else tokenFrom rest

/-- `NLPProcessor.extract_name`: the four patterns tried in priority order,
each searched over the whole (original-case) text. -/
def extractName (text : String) : Option String :=
  match searchFrom (tryNameAt "name" true) text.data with
  | some n => some n
  | none =>
    match searchFrom (tryNameAt "call" true) text.data with
    | some n => some n
    | none =>
      match searchFrom (tryNameAt "named" false) text.data with
      | some n => some n
      | none => searchFrom (tryNameAt "called" false) text.data

/-- The RAM→SKU ladder of `extract_vm_parameters`. -/
def ramToSize (ram : Nat) : String :=
  if ram ≤ 1 then "Standard_B1s"
  else if ram ≤ 2 then "Standard_B2s"
  else if ram ≤ 4 then "Standard_D2s_v3"
  else if ram ≤ 8 then "Standard_D4s_v3"
  else if ram ≤ 16 then "Standard_D8s_v3"
  else "Standard_D16s_v3"

/-- `NLPProcessor.extract_vm_parameters`.  Note the size-code loop `break`s
only the inner loop, so a later tier overwrites an earlier one, and a RAM
match overwrites both. -/
def extractVmParameters (text : String) : List (String × ParamValue) :=
  let tl := pyLower text
  let d : List (String × ParamValue) := []
  let d :=
    if ["windows", "win"].any (fun w => containsSub tl w) then
      dictInsert d "vm_type" (.vmType .windows)
    else if ["linux", "ubuntu", "centos", "debian"].any (fun w => containsSub tl w) then
      dictInsert d "vm_type" (.vmType .linux)
    else d
  let d := vmSizePatterns.foldl (fun d cat =>
    match cat.2.find? (fun s => containsSub tl s) with
    | some s => dictInsert d "size" (.str ("Standard_" ++ pyUpper s))
    | none => d) d
  let d :=
    match searchFrom tryRamAt (pyLower text).data with
    | some ram => dictInsert d "size" (.str (ramToSize ram))
    | none => d
  match searchFrom tryUsernameAt (pyLower text).data with
  | some u => dictInsert d "admin_username" (.str u)
  | none => d

/-- `NLPProcessor.extract_storage_parameters`: both keys are always set. -/
def extractStorageParameters (text : String) : List (String × ParamValue) :=
  let tl := pyLower text
  let d :=
    if containsSub tl "premium" then
      [("account_type", ParamValue.storageType .premium_lrs)]
    else if containsSub tl "geo" || containsSub tl "redundant" then
      [("account_type", ParamValue.storageType .standard_grs)]
    else
      [("account_type", ParamValue.storageType .standard_lrs)]
  if containsSub tl "cool" then d ++ [("access_tier", ParamValue.str "Cool")]
  else d ++ [("access_tier", ParamValue.str "Hot")]

/-- `NLPProcessor.extract_webapp_parameters`. -/
def extractWebappParameters (text : String) : List (String × ParamValue) :=
  let tl := pyLower text
  let d : List (String × ParamValue) := []
  let d :=
    if containsSub tl "node" || containsSub tl "javascript" then
      dictInsert d "runtime" (.runtime .node_js)
    else if containsSub tl "python" then dictInsert d "runtime" (.runtime .python)
    else if containsSub tl "dotnet" || containsSub tl "c#" || containsSub tl ".net" then
      dictInsert d "runtime" (.runtime .dotnet)
    else if containsSub tl "java" then dictInsert d "runtime" (.runtime .java)
    else if containsSub tl "php" then dictInsert d "runtime" (.runtime .php)
    else if containsSub tl "ruby" then dictInsert d "runtime" (.runtime .ruby)
    else d
  if containsSub tl "basic" then dictInsert d "plan_sku" (.str "B1")
  else if containsSub tl "standard" then dictInsert d "plan_sku" (.str "S1")
  else if containsSub tl "premium" then dictInsert d "plan_sku" (.str "P1v2")
  else dictInsert d "plan_sku" (.str "F1")

/-- `NLPProcessor.extract_tags`. -/
def extractTags (text : String) : List (String × String) :=
  let tl := pyLower text
  let env :=
    if containsSub tl "production" then [("environment", "production")]
    else if containsSub tl "development" || containsSub tl "dev" then
      [("environment", "development")]
    else if containsSub tl "test" || containsSub tl "testing" then
      [("environment", "testing")]
    else []
  let proj :=
    if containsSub tl "project" then
      match searchFrom tryProjectAt tl.data with
      | some p => [("project", p)]
      | none => []
    else []
  env ++ proj

/-! The clarifying questions of `parse_request`. -/

def clarifyTypeQuestion : String :=
  "I couldn't determine what type of resource you want to create. Please specify the resource type."

def nameQuestion : String := "What would you like to name this resource?"

def locationQuestion : String := "Which Azure region would you prefer?"

def vmTypeQuestion : String := "What type of VM would you like? (Windows or Linux)"

def adminUsernameQuestion : String := "What admin username would you like to use?"

def runtimeQuestion : String :=
  "What runtime would you like? (Node.js, Python, .NET, Java, PHP, Ruby)"

/-- The type-specific branch of `parse_request` (steps on the detected
resource type): extracted parameters plus the type-specific questions, in
the order the source appends them. -/
def typeParams (text : String) (rt : ResourceType) :
    List (String × ParamValue) × List String :=
  if rt = ResourceType.virtual_machine then
    let vp := extractVmParameters text
    (vp,
      (if hasKey vp "vm_type" then [] else [vmTypeQuestion]) ++
      (if hasKey vp "admin_username" then [] else [adminUsernameQuestion]))
  else if rt = ResourceType.storage_account then (extractStorageParameters text, [])
  else if rt = ResourceType.web_app then
    let wp := extractWebappParameters text
    (wp, if hasKey wp "runtime" then [] else [runtimeQuestion])
  else ([], [])

/-- The missing-question list accumulated by `parse_request` for a detected
resource type: name question, then location question, then type-specific
questions. -/
def missingOf (text : String) (rt : ResourceType) : List String :=
  (if (extractName text).isNone then [nameQuestion] else []) ++
  (if (extractLocation text).isNone then [locationQuestion] else []) ++
  (typeParams text rt).2

/-- `NLPProcessor.parse_request`.  When the missing list is empty the name is
necessarily present (its absence would have contributed `nameQuestion`), so
the `getD` default is unreachable; it stands in for the non-`None` string
the Python code passes. -/
def parseRequest (text userId : String) : Option ResourceRequest × List String :=
  match extractResourceType text with
  | none => (none, [clarifyTypeQuestion])
  | some rt =>
    let missing := missingOf text rt
    if missing.isEmpty then
      (some { resource_type := rt,
              name := (extractName text).getD "",
              location := extractLocation text,
              parameters := (typeParams text rt).1,
              tags := some (extractTags text),
              user_id := userId }, [])
    else (none, missing)

/-- `NLPProcessor.generate_response`: phase-indexed message templates. -/
def optLocStr : Option String → String
  | some s => s
  | none => "None"

def generateResponse (r : ResourceRequest) (status : String) : String :=
  let rn := pyDisplay r.resource_type.value
  if status = "confirm" then
    "I'll create a " ++ rn ++ " named '" ++ r.name ++ "' in " ++
      optLocStr r.location ++ ". Is this correct?"
  else if status = "in_progress" then
    "Creating your " ++ rn ++ " '" ++ r.name ++ "' in " ++
      optLocStr r.location ++ ". This may take a few minutes."
  else if status = "completed" then
    "✅ Your " ++ rn ++ " '" ++ r.name ++ "' has been successfully created in " ++
      optLocStr r.location ++ "!"
  else if status = "failed" then
    "❌ Sorry, I couldn't create the " ++ rn ++
      ". Please try again or contact support."
  else "Processing your " ++ rn ++ " request..."

/-! ## `agent.py` -/

/-- Configuration values and external collaborators that the agent consults
(`config.security`, `config.azure.default_location`, and the Azure client's
`provision_resource` / `list_resources`).  The Azure client catches its own
exceptions and always returns a response / a list, so the collaborators are
total functions here. -/
structure ResourceInfo where
  name : String
  type : String
  location : String
deriving DecidableEq

structure Env where
  allowed_users : List String := []
  admin_users : List String := []
  default_location : String := "East US"
  provision : ResourceRequest → ProvisioningResponse
  listResources : List ResourceInfo := []

/-- The agent's `conversation_contexts` dict, keyed by `"{user_id}:{conversation_id}"`. -/
abbrev Store := List (String × ConversationContext)

def contextKey (userId conversationId : String) : String :=
  userId ++ ":" ++ conversationId

def storeGet : Store → String → Option ConversationContext
  | [], _ => none
  | kv :: rest, k => if kv.1 = k then some kv.2 else storeGet rest k

/-- Python dict assignment: overwrite in place, else append. -/
def storeSet : Store → String → ConversationContext → Store
  | [], k, c => [(k, c)]
  | kv :: rest, k, c =>
    if kv.1 = k then (k, c) :: rest else kv :: storeSet rest k c

/-- `AzureProvisioningAgent._get_conversation_context`: get or create, then
refresh `last_activity`. -/
def getConversationContext (now : Nat) (store : Store) (userId conversationId : String) :
    Store × ConversationContext :=
  let k := contextKey userId conversationId
  match storeGet store k with
  | some c =>
    let c2 := { c with last_activity := now }
    (storeSet store k c2, c2)
  | none =>
    let c : ConversationContext :=
      { user_id := userId, conversation_id := conversationId,
        created_at := now, last_activity := now }
    (storeSet store k c, c)

/-- The hour attribute of the modelled clock (hours since epoch). -/
def hourOf (t : Nat) : Nat := t % 24

/-- `datetime.replace(hour=h)`: validates `0 <= h <= 23` (raising
`ValueError` otherwise) and substitutes the hour field. -/
def replaceHour (t : Nat) (h : Int) : Except String Nat :=
  if 0 ≤ h ∧ h ≤ 23 then .ok ((t / 24) * 24 + h.toNat)
  else .error "hour must be in 0..23"

/-- `AzureProvisioningAgent._cleanup_old_contexts`: computes
`utcnow().replace(hour=utcnow().hour - max_age_hours)` as the cutoff — which
raises before any context is removed whenever `hour - max_age_hours` falls
outside 0..23 — then deletes every context with `last_activity < cutoff`. -/
def cleanupOldContexts (now : Nat) (store : Store) (maxAgeHours : Nat := 24) :
    Except String Store :=
  match replaceHour now ((hourOf now : Int) - (maxAgeHours : Int)) with
  | .error e => .error e
  | .ok cutoff =>
    .ok (List.filter (fun kv => !decide (kv.2.last_activity < cutoff)) store)

/-- `AzureProvisioningAgent._check_user_permissions`. -/
def checkUserPermissions (env : Env) (userId : String) : Bool :=
  if !env.allowed_users.isEmpty && !env.allowed_users.contains userId then false
  else if env.admin_users.contains userId then true
  else env.allowed_users.isEmpty

/-! Messages issued by the agent (exact source strings; the `â...`
escapes reproduce the mojibake characters present in `agent.py`). -/

def permissionDeniedText : String :=
  "Sorry, you don't have permission to provision Azure resources. Please contact your administrator."

def cancelledText : String := "Operation cancelled. How can I help you?"

def genericErrorText : String :=
  "Sorry, I encountered an error while processing your request. Please try again."

def troubleText : String :=
  "I'm having trouble understanding the parameters. Please try again with a complete request."

def notSureText : String :=
  "I'm not sure what you're referring to. Could you please clarify?"

def noPendingText : String :=
  "No pending request to confirm. Please start a new request."

def requestCancelledText : String := "Request cancelled. How can I help you?"

def failedCreateMark : String := "âŒ Failed to create resource: "

def bulletMark : String := "â€¢ "

def needMoreInfoText (missing : List String) : String :=
  "I need some more information to create your resource:\n\n" ++
    String.intercalate "\n" (missing.map (fun q => bulletMark ++ q))

def noResourcesText : String := "No resources found in the default resource group."

def listErrorText : String :=
  "Sorry, I couldn't retrieve your resources. Please try again."

/-- `AzureProvisioningAgent._get_help_message` (content of the triple-quoted
string after `.strip()`, mojibake included). -/
def helpMessageText : String :=
  "ðŸ¤– **Azure Resource Provisioning Agent**\n\n" ++
  "I can help you create various Azure resources. Here's what I support:\n\n" ++
  "**Virtual Machines**\n" ++
  "â€¢ Windows and Linux VMs\n" ++
  "â€¢ Custom sizes and configurations\n" ++
  "â€¢ Example: \"Create a Windows VM with 4GB RAM\"\n\n" ++
  "**Storage Accounts**\n" ++
  "â€¢ Blob, File, Queue, and Table storage\n" ++
  "â€¢ Different redundancy options\n" ++
  "â€¢ Example: \"Create a storage account for my project\"\n\n" ++
  "**Web Apps**\n" ++
  "â€¢ Node.js, Python, .NET, Java, PHP, Ruby\n" ++
  "â€¢ App Service with custom plans\n" ++
  "â€¢ Example: \"Deploy a Node.js web app\"\n\n" ++
  "**Other Resources**\n" ++
  "â€¢ SQL Databases\n" ++
  "â€¢ Cosmos DB\n" ++
  "â€¢ Virtual Networks\n" ++
  "â€¢ Container Instances\n" ++
  "â€¢ AKS Clusters\n" ++
  "â€¢ And more!\n\n" ++
  "**Commands**\n" ++
  "â€¢ \"help\" - Show this message\n" ++
  "â€¢ \"list resources\" - Show your existing resources\n" ++
  "â€¢ \"cancel\" - Cancel current operation\n\n" ++
  "Just tell me what you want to create! ðŸš€"

/-- Clearing of `current_request` / `pending_questions` /
`collected_parameters`, as done by the cancel and confirmation paths. -/
def clearDialogue (c : ConversationContext) : ConversationContext :=
  { c with current_request := none, pending_questions := [],
           collected_parameters := [] }

/-- The suggested actions attached by `_handle_complete_request`. -/
def confirmActions : List SuggestedAction :=
  [ { type := "imBack", title := "Yes, create it", value := "yes" },
    { type := "imBack", title := "No, cancel", value := "no" } ]

/-- `AzureProvisioningAgent._handle_complete_request`: stores the request in
the context and returns the confirmation prompt. -/
def handleCompleteRequest (ctx : ConversationContext) (request : ResourceRequest) :
    ConversationContext × BotMessage :=
  let ctx := { ctx with current_request := some request }
  (ctx, { text := generateResponse request "confirm",
          suggested_actions := some confirmActions })

def dictGetStr (d : List (String × String)) (k dflt : String) : String :=
  match d.find? (fun kv => kv.1 = k) with
  | some kv => kv.2
  | none => dflt

/-- Python dict assignment on `collected_parameters`. -/
def strDictInsert (d : List (String × String)) (k v : String) :
    List (String × String) :=
  if d.any (fun kv => kv.1 = k) then
    d.map (fun kv => if kv.1 = k then (k, v) else kv)
  else d ++ [(k, v)]

/-- The `ResourceRequest(...)` constructor call of
`_handle_parameter_collection`: pydantic rejects `resource_type=None`
(required enum field), which the source reaches whenever
`context.current_request` is absent. -/
def mkBasicRequest (rt : Option ResourceType) (name location userId : String) :
    Except String ResourceRequest :=
  match rt with
  | none => .error "validation error: none is not an allowed value for resource_type"
  | some rt =>
    .ok { resource_type := rt, name := name, location := some location,
          user_id := userId }

/-- `AzureProvisioningAgent._handle_parameter_collection`. -/
def handleParameterCollection (env : Env) (ctx : ConversationContext) (message : String) :
    ConversationContext × BotMessage :=
  match ctx.pending_questions with
  | [] => (ctx, { text := notSureText })
  | currentQuestion :: rest =>
    let ctx := { ctx with
      collected_parameters := strDictInsert ctx.collected_parameters currentQuestion message,
      pending_questions := rest }
    match rest with
    | next :: _ => (ctx, { text := next })
    | [] =>
      match mkBasicRequest (ctx.current_request.map (fun r => r.resource_type))
          (dictGetStr ctx.collected_parameters "name" "unnamed-resource")
          (dictGetStr ctx.collected_parameters "location" env.default_location)
          ctx.user_id with
      | .ok request => handleCompleteRequest ctx request
      | .error _ => (ctx, { text := troubleText })

/-- `AzureProvisioningAgent._handle_list_resources` (the Azure client
returns `[]` on its own failures, so the handler's `except` arm is dead in
this model). -/
def handleListResources (env : Env) : BotMessage :=
  match env.listResources with
  | [] => { text := noResourcesText }
  | resources =>
    let shown := resources.take 10
    let lines := shown.map (fun r =>
      bulletMark ++ r.name ++ " (" ++ r.type ++ ") - " ++ r.location)
    let text := "Here are your resources:\n\n" ++ String.intercalate "\n" lines
    let text :=
      if resources.length > 10 then
        text ++ "\n\n... and " ++ toString (resources.length - 10) ++ " more resources."
      else text
    { text := text }

/-- `AzureProvisioningAgent.process_message`.  The result is the updated
context store, the bot's reply, and the trace of provisioning calls made
(always `[]`: this method never provisions).  The whole body runs inside
`try`; the only statement that can raise in this model is
`_cleanup_old_contexts()` — the very first one, before any mutation — and
the handler returns the generic error message with the store untouched. -/
def processMessage (env : Env) (now : Nat) (store : Store)
    (userId conversationId message : String) :
    Store × BotMessage × List ResourceRequest :=
  match cleanupOldContexts now store with
  | .error _ => (store, { text := genericErrorText }, [])
  | .ok store1 =>
    if !checkUserPermissions env userId then
      (store1, { text := permissionDeniedText }, [])
    else
      let k := contextKey userId conversationId
      let (store2, ctx) := getConversationContext now store1 userId conversationId
      if ["cancel", "stop", "abort"].contains (pyLower message) then
        (storeSet store2 k (clearDialogue ctx), { text := cancelledText }, [])
      else if ["help", "what can you do", "?"].contains (pyLower message) then
        (store2, { text := helpMessageText }, [])
      else if ["list", "show", "what", "resources"].any
          (fun w => containsSub (pyLower message) w) then
        (store2, handleListResources env, [])
      else if !ctx.pending_questions.isEmpty then
        let (ctx2, reply) := handleParameterCollection env ctx message
        (storeSet store2 k ctx2, reply, [])
      else
        match parseRequest message userId with
        | (some request, _) =>
          let (ctx2, reply) := handleCompleteRequest ctx request
          (storeSet store2 k ctx2, reply, [])
        | (none, missingParams) =>
          let ctx2 := { ctx with pending_questions := missingParams }
          (storeSet store2 k ctx2, { text := needMoreInfoText missingParams }, [])

/-- The temporary request `confirm_and_provision` rebuilds from a completed
response for the success message. -/
def completedTempRequest (response : ProvisioningResponse) (userId : String) :
    ResourceRequest :=
  { resource_type := response.resource_type, name := response.resource_name,
    location := some response.location, user_id := userId }

/-- `AzureProvisioningAgent.confirm_and_provision`.  The provisioning
collaborator never raises (the Azure client converts its failures into
`Failed` responses), so the surrounding `try` is dead in this model; the
`in_progress` status message is computed and discarded by the source. -/
def confirmAndProvision (env : Env) (now : Nat) (store : Store)
    (userId conversationId : String) (confirm : Bool) :
    Store × BotMessage × List ResourceRequest :=
  let k := contextKey userId conversationId
  let store1 := (getConversationContext now store userId conversationId).1
  let ctx := (getConversationContext now store userId conversationId).2
  match ctx.current_request with
  | none => (store1, { text := noPendingText }, [])
  | some request =>
    if !confirm then
      (storeSet store1 k (clearDialogue ctx), { text := requestCancelledText }, [])
    else
      let response := env.provision request
      let ctx2 := clearDialogue ctx
      let store2 := storeSet store1 k ctx2
      if response.status = ProvisioningStatus.completed then
        (store2,
         { text := generateResponse (completedTempRequest response ctx2.user_id) "completed" },
         [request])
      else
        (store2, { text := failedCreateMark ++ response.message }, [request])

/-! ## `bot.py` -/

/-- `AzureProvisioningBot.on_message_activity`: always processes the message
through the agent, then overrides the response with
`confirm_and_provision` when the text is exactly `yes` or `no`. -/
def onMessageActivity (env : Env) (now : Nat) (store : Store)
    (userId conversationId messageText : String) :
    Store × BotMessage × List ResourceRequest :=
  let (store1, response, calls1) := processMessage env now store userId conversationId messageText
  if ["yes", "no"].contains (pyLower messageText) then
    let (store2, response2, calls2) :=
      confirmAndProvision env now store1 userId conversationId (pyLower messageText = "yes")
    (store2, response2, calls1 ++ calls2)
  else (store1, response, calls1)

/-! ## Concrete fixtures used by witnesses and counterexamples -/

/-- A provisioning collaborator that always succeeds (the claims quantify
over the collaborator; this concrete one instantiates them). -/
def sampleProvision (r : ResourceRequest) : ProvisioningResponse :=
  { status := .completed, resource_name := r.name,
    resource_type := r.resource_type, location := optLocStr r.location,
    message := "ok" }

def sampleEnv : Env := { provision := sampleProvision }

/-- A context mid slot-filling: one pending question, nothing collected,
no request skeleton. -/
def pendingNameCtx : ConversationContext :=
  { user_id := "u", conversation_id := "c",
    pending_questions := [nameQuestion] }

/-- Scenario A input from the specification. -/
def scenarioAText : String :=
  "Create a Windows VM named web01 in East US, username admin"

/-- A complete request awaiting confirmation. -/
def awaitingReq : ResourceRequest :=
  { resource_type := .virtual_machine, name := "web01",
    location := some "East Us", user_id := "u" }

/-- A context in the awaiting-confirmation state holding `awaitingReq`. -/
def awaitingCtx : ConversationContext :=
  { user_id := "u", conversation_id := "c",
    current_request := some awaitingReq,
    pending_questions := ["leftover question"],
    collected_parameters := [("a", "b")] }

/-- The fixed priority list of questions for a resource type: name, then
location, then the type-specific questions. -/
def typeQuestionList : ResourceType → List String
  | .virtual_machine => [vmTypeQuestion, adminUsernameQuestion]
  | .web_app => [runtimeQuestion]
  | _ => []

def priorityQuestions (rt : ResourceType) : List String :=
  [nameQuestion, locationQuestion] ++ typeQuestionList rt

/-! ## Helper lemmas -/

theorem storeGet_storeSet_self (s : Store) (k : String) (c : ConversationContext) :
    storeGet (storeSet s k c) k = some c := by
  induction s with
  | nil => simp [storeSet, storeGet]
  | cons kv rest ih =>
    by_cases h : kv.1 = k
    · simp [storeSet, storeGet, h]
    · simp [storeSet, storeGet, h, ih]

theorem storeGet_getContext (now : Nat) (store : Store) (uid cid : String) :
    storeGet (getConversationContext now store uid cid).1 (contextKey uid cid) =
      some (getConversationContext now store uid cid).2 := by
  unfold getConversationContext
  cases h : storeGet store (contextKey uid cid) <;>
    simp [h, storeGet_storeSet_self]

theorem getContext_of_found (now : Nat) (store : Store) (uid cid : String)
    (c0 : ConversationContext)
    (h : storeGet store (contextKey uid cid) = some c0) :
    getConversationContext now store uid cid =
      (storeSet store (contextKey uid cid) { c0 with last_activity := now },
       { c0 with last_activity := now }) := by
  unfold getConversationContext
  simp only [h]

/-- The cutoff computation of `_cleanup_old_contexts` always raises: the
current hour is in 0..23, so `hour - 24` is negative and
`datetime.replace` rejects it. -/
theorem cleanup_always_errors (now : Nat) (store : Store) :
    cleanupOldContexts now store = Except.error "hour must be in 0..23" := by
  unfold cleanupOldContexts replaceHour
  have h24 : hourOf now < 24 := Nat.mod_lt _ (by norm_num)
  have hneg : ¬ (0 ≤ (hourOf now : Int) - ((24 : Nat) : Int) ∧
      (hourOf now : Int) - ((24 : Nat) : Int) ≤ 23) := by
    rintro ⟨h1, -⟩
    omega
  rw [if_neg hneg]

theorem if_empty_sublist (c : Bool) (x : String) :
    List.Sublist (if c then ([] : List String) else [x]) [x] := by
  cases c <;> simp

theorem if_single_sublist (c : Bool) (x : String) :
    List.Sublist (if c then [x] else ([] : List String)) [x] := by
  cases c <;> simp

theorem typeParams_snd_sublist (text : String) (rt : ResourceType) :
    List.Sublist (typeParams text rt).2 (typeQuestionList rt) := by
  cases rt <;>
    simp only [typeParams, typeQuestionList, reduceCtorEq, if_true, if_false] <;>
    first
      | exact List.Sublist.refl _
      | exact List.Sublist.append (if_empty_sublist _ _) (if_empty_sublist _ _)
      | exact if_empty_sublist _ _

theorem missingOf_sublist (text : String) (rt : ResourceType) :
    List.Sublist (missingOf text rt) (priorityQuestions rt) := by
  unfold missingOf priorityQuestions
  exact ((if_single_sublist _ _).append (if_single_sublist _ _)).append
    (typeParams_snd_sublist text rt)

theorem parse_missing_sublist (text userId : String) (rt : ResourceType)
    (h : extractResourceType text = some rt) :
    List.Sublist (parseRequest text userId).2 (priorityQuestions rt) := by
  unfold parseRequest
  rw [h]
  by_cases he : (missingOf text rt).isEmpty
  · simp [he]
  · simp only [he, if_false]
    exact missingOf_sublist text rt

/-! ## Claim theorems -/

/-- Claim C1 (code bug): the claim says a context whose `last_activity` is
older than the 24-hour TTL is evicted at the start of the next message's
processing and that processing then completes normally.  In the code,
`_cleanup_old_contexts` computes the cutoff as
`utcnow().replace(hour=utcnow().hour - 24)`; the current hour is always in
0..23, so the replacement hour is negative, `datetime.replace` raises
`ValueError`, the top-level handler catches it, and every single call to
`process_message` — for any store, clock value and message — returns the
generic error message, removes no context, and performs no dialogue step. -/
theorem c1_cleanup_raises_so_no_eviction (env : Env) (now : Nat) (store : Store)
    (userId conversationId message : String) :
    processMessage env now store userId conversationId message =
      (store, { text := genericErrorText }, []) := by
  unfold processMessage
  rw [cleanup_always_errors]

/-- Claim C2 (code bug): the claim's description of the collection handler is
accurate — `_handle_parameter_collection`, run on a context with one pending
question and no `current_request`, records the answer under the full
question-text key, then builds the request with `resource_type=None` (and
`collected_parameters.get("name"/"location")`, which miss the question-text
keys), fails pydantic validation, and returns the trouble message — but
`process_message` never reaches that handler: `_cleanup_old_contexts` raises
first and the agent answers with the generic error message, recording
nothing. -/
theorem c2_collection_trouble_vs_process_error :
    handleParameterCollection sampleEnv pendingNameCtx "mybox" =
      ({ pendingNameCtx with
          pending_questions := [],
          collected_parameters := [(nameQuestion, "mybox")] },
       { text := troubleText }) ∧
    processMessage sampleEnv 5 [("u:c", pendingNameCtx)] "u" "c" "mybox" =
      ([("u:c", pendingNameCtx)], { text := genericErrorText }, []) := by
  constructor
  · decide
  · decide

/-- Claim C3 (code bug): the claim says feeding a complete message and then
"yes" yields exactly one provisioning call and an `Idle` context.  Because
`_cleanup_old_contexts` raises on every `process_message` call, the first
message is answered with the generic error and no request is ever stored;
the subsequent "yes" goes to `confirm_and_provision`, which finds no
`current_request` and returns the no-pending-request message.  The
provisioning collaborator is called zero times, not once. -/
theorem c3_round_trip_makes_no_provision_call :
    (onMessageActivity sampleEnv 100 [] "u" "c" scenarioAText).2.2 = [] ∧
    (onMessageActivity sampleEnv 100 [] "u" "c" scenarioAText).2.1.text =
      genericErrorText ∧
    (onMessageActivity sampleEnv 101
        (onMessageActivity sampleEnv 100 [] "u" "c" scenarioAText).1
        "u" "c" "yes").2.2 = [] ∧
    (onMessageActivity sampleEnv 101
        (onMessageActivity sampleEnv 100 [] "u" "c" scenarioAText).1
        "u" "c" "yes").2.1.text = noPendingText := by
  refine ⟨?_, ?_, ?_, ?_⟩ <;> decide

/-- Claim C10 (code bug): the claim says a message containing a listing word
is delegated to the resource-listing path regardless of dialogue state.  The
dispatch at lines 100-117 of `agent.py` would indeed do so (the listing check
precedes the pending-questions branch), but `_cleanup_old_contexts` raises
before the dispatch is reached, so the agent returns the generic error
message instead; the pending questions are (trivially) left unchanged and the
message is not recorded as an answer, but no listing happens either. -/
theorem c10_listing_message_hits_generic_error :
    (["list", "show", "what", "resources"].any
      (fun w => containsSub (pyLower "show me the resources") w)) = true ∧
    processMessage sampleEnv 7 [("u:c", pendingNameCtx)] "u" "c"
        "show me the resources" =
      ([("u:c", pendingNameCtx)], { text := genericErrorText }, []) := by
  constructor
  · decide
  · decide

/-- Claim C4 counterexample: the claim says `confirm(context, false)` clears
the three dialogue fields for every conversation context.  For a stored
context with no `current_request` but a non-empty `pending_questions`,
`confirm_and_provision` takes the early no-pending-request return before it
ever looks at `confirmed`, so `pending_questions` survives. -/
theorem c4_counterexample :
    (storeGet (confirmAndProvision sampleEnv 3 [("u:c", pendingNameCtx)]
          "u" "c" false).1 (contextKey "u" "c")).map
        ConversationContext.pending_questions = some [nameQuestion] ∧
    [nameQuestion] ≠ ([] : List String) := by
  constructor
  · decide
  · decide

/-- Claim C4 amended: calling confirm with `confirmed = false` never invokes
the provisioning collaborator; it clears `current_request`,
`pending_questions` and `collected_parameters` when a `current_request` is
present, but when `current_request` is absent it returns the
no-pending-request message and leaves the context's dialogue fields
untouched (only `last_activity` is refreshed by the lookup). -/
theorem c4_confirm_false_never_provisions (env : Env) (now : Nat)
    (store : Store) (userId conversationId : String) :
    (confirmAndProvision env now store userId conversationId false).2.2 = [] ∧
    storeGet (confirmAndProvision env now store userId conversationId false).1
        (contextKey userId conversationId) =
      some (if ((getConversationContext now store userId conversationId).2).current_request.isSome
            then clearDialogue (getConversationContext now store userId conversationId).2
            else (getConversationContext now store userId conversationId).2) ∧
    (confirmAndProvision env now store userId conversationId false).2.1.text =
      (if ((getConversationContext now store userId conversationId).2).current_request.isSome
       then requestCancelledText else noPendingText) := by
  have hg := storeGet_getContext now store userId conversationId
  unfold confirmAndProvision
  cases h : (getConversationContext now store userId conversationId).2.current_request with
  | none => simp [h, hg]
  | some req => simp [h, storeGet_storeSet_self]

/-- Claim C5 (confirmed): with a stored `current_request`, confirming invokes
the provisioning collaborator exactly once and — whatever the response
status — clears `current_request`, `pending_questions` and
`collected_parameters` before returning; a `Completed` status yields the
templated success message and any other status yields the failure message
with the collaborator's `message` field appended verbatim. -/
theorem c5_confirm_true_provisions_and_clears (env : Env) (now : Nat)
    (store : Store) (userId conversationId : String)
    (c0 : ConversationContext) (req : ResourceRequest)
    (h1 : storeGet store (contextKey userId conversationId) = some c0)
    (h2 : c0.current_request = some req) :
    (confirmAndProvision env now store userId conversationId true).2.2 = [req] ∧
    storeGet (confirmAndProvision env now store userId conversationId true).1
        (contextKey userId conversationId) =
      some (clearDialogue { c0 with last_activity := now }) ∧
    (confirmAndProvision env now store userId conversationId true).2.1.text =
      (if (env.provision req).status = ProvisioningStatus.completed
       then generateResponse (completedTempRequest (env.provision req) c0.user_id) "completed"
       else failedCreateMark ++ (env.provision req).message) := by
  unfold confirmAndProvision
  rw [getContext_of_found now store userId conversationId c0 h1]
  by_cases hs : (env.provision req).status = ProvisioningStatus.completed
  · simp [h2, hs, storeGet_storeSet_self, clearDialogue, completedTempRequest]
  · simp [h2, hs, storeGet_storeSet_self, clearDialogue]

/-- Claim C5 witness: instantiation at a concrete store containing a context
that holds a pending request, with the always-succeeding collaborator. -/
theorem c5_witness :
    (confirmAndProvision sampleEnv 9 [("u:c", awaitingCtx)] "u" "c" true).2.2 =
      [awaitingReq] ∧
    storeGet (confirmAndProvision sampleEnv 9 [("u:c", awaitingCtx)] "u" "c" true).1
        (contextKey "u" "c") =
      some (clearDialogue { awaitingCtx with last_activity := 9 }) ∧
    (confirmAndProvision sampleEnv 9 [("u:c", awaitingCtx)] "u" "c" true).2.1.text =
      (if (sampleEnv.provision awaitingReq).status = ProvisioningStatus.completed
       then generateResponse
         (completedTempRequest (sampleEnv.provision awaitingReq) awaitingCtx.user_id)
         "completed"
       else failedCreateMark ++ (sampleEnv.provision awaitingReq).message) :=
  c5_confirm_true_provisions_and_clears sampleEnv 9 [("u:c", awaitingCtx)]
    "u" "c" awaitingCtx awaitingReq (by decide) (by decide)

/-- Claim C6 (confirmed): when no resource-type keyword phrase occurs as a
case-insensitive substring of the text, `parse_request` returns no request
together with exactly the one clarifying question; it returns before any
name, location, parameter or tag extraction is reached. -/
theorem c6_no_resource_keyword_single_question (text userId : String)
    (h : ∀ kw ∈ allResourceKeywords, containsSub (pyLower text) kw = false) :
    parseRequest text userId = (none, [clarifyTypeQuestion]) := by
  have hrt : extractResourceType text = none := by
    unfold extractResourceType
    have hf : resourceKeywords.find?
        (fun p => p.2.any (fun kw => containsSub (pyLower text) kw)) = none := by
      rw [List.find?_eq_none]
      intro p hp hany
      obtain ⟨kw, hkw, hc⟩ := List.any_eq_true.mp hany
      have hmem : kw ∈ allResourceKeywords := by
        unfold allResourceKeywords
        exact List.mem_flatten.mpr ⟨p.2, List.mem_map.mpr ⟨p, hp, rfl⟩, hkw⟩
      rw [h kw hmem] at hc
      cases hc
    simp [hf]
  unfold parseRequest
  rw [hrt]

/-- Claim C6 witness: the text "hello there" contains no resource keyword and
receives exactly the clarifying question. -/
theorem c6_witness :
    (∀ kw ∈ allResourceKeywords, containsSub (pyLower "hello there") kw = false) ∧
    parseRequest "hello there" "u" = (none, [clarifyTypeQuestion]) :=
  ⟨by decide, c6_no_resource_keyword_single_question "hello there" "u" (by decide)⟩

/-- Claim C7 (confirmed): for every text with a detected resource type, the
missing-question list of `parse_request` is an ordered sublist of the fixed
priority list — name question, location question, then the type-specific
questions (VM: OS type then admin username; web app: runtime).  The
extractor is a pure function, so the order is the same on every call. -/
theorem c7_missing_questions_follow_priority (text userId : String)
    (rt : ResourceType) (h : extractResourceType text = some rt) :
    List.Sublist (parseRequest text userId).2 (priorityQuestions rt) :=
  parse_missing_sublist text userId rt h

/-- Claim C7 witness: the bare text "vm" is detected as a VM and its four
missing questions appear in exactly the priority order. -/
theorem c7_witness :
    extractResourceType "vm" = some ResourceType.virtual_machine ∧
    (parseRequest "vm" "u").2 = priorityQuestions ResourceType.virtual_machine ∧
    List.Sublist (parseRequest "vm" "u").2
      (priorityQuestions ResourceType.virtual_machine) :=
  ⟨by decide, by decide,
   c7_missing_questions_follow_priority "vm" "u" ResourceType.virtual_machine (by decide)⟩

/-- Claim C8 counterexample: on Scenario A's input the extracted name is
"admin", not "web01": the first name pattern `name\s+(?:it\s+)?(token)`
matches inside `"username admin"` (the substring `name admin`) before the
`named` pattern is ever tried. -/
theorem c8_counterexample :
    ((parseRequest scenarioAText "u").1).map ResourceRequest.name =
      some "admin" ∧
    ("admin" : String) ≠ "web01" := by
  constructor
  · decide
  · decide

/-- Claim C8 amended: on the input "Create a Windows VM named web01 in East
US, username admin" the extractor returns a complete VM request with
`name = "admin"` (captured from `username admin` by the first name pattern),
location "East Us", `vm_type = windows`, `admin_username = "admin"`, and an
empty missing list. -/
theorem c8_scenario_a_complete_with_name_admin :
    parseRequest scenarioAText "u" =
      (some { resource_type := ResourceType.virtual_machine,
              name := "admin",
              location := some "East Us",
              resource_group := none,
              tags := some [],
              parameters := [("vm_type", ParamValue.vmType VMType.windows),
                             ("admin_username", ParamValue.str "admin")],
              user_id := "u" }, []) := by
  decide

/-- Claim C9 (confirmed): a storage-account text never has a storage-specific
slot reported missing — the missing list is always an ordered sublist of
[name question, location question]; `extract_storage_parameters` defaults
the account type to Standard_LRS and the access tier to "Hot" when no
keyword matches; and the concrete input "I need a storage account" yields
exactly the name and region questions with those defaults supplied. -/
theorem c9_storage_missing_only_name_location :
    (∀ text userId : String,
      extractResourceType text = some ResourceType.storage_account →
        List.Sublist (parseRequest text userId).2 [nameQuestion, locationQuestion]) ∧
    parseRequest "I need a storage account" "u" =
      (none, [nameQuestion, locationQuestion]) ∧
    extractStorageParameters "I need a storage account" =
      [("account_type", ParamValue.storageType StorageAccountType.standard_lrs),
       ("access_tier", ParamValue.str "Hot")] ∧
    (∀ text : String,
      containsSub (pyLower text) "premium" = false →
      containsSub (pyLower text) "geo" = false →
      containsSub (pyLower text) "redundant" = false →
      containsSub (pyLower text) "cool" = false →
      extractStorageParameters text =
        [("account_type", ParamValue.storageType StorageAccountType.standard_lrs),
         ("access_tier", ParamValue.str "Hot")]) := by
  refine ⟨?_, by decide, by decide, ?_⟩
  · intro text userId h
    have hs := parse_missing_sublist text userId ResourceType.storage_account h
    simpa [priorityQuestions, typeQuestionList] using hs
  · intro text h1 h2 h3 h4
    unfold extractStorageParameters
    simp [h1, h2, h3, h4]

/-- Claim C9 witness: instantiation of the universal part at the concrete
Scenario B input. -/
theorem c9_witness :
    extractResourceType "I need a storage account" =
      some ResourceType.storage_account ∧
    List.Sublist (parseRequest "I need a storage account" "u").2
      [nameQuestion, locationQuestion] :=
  ⟨by decide,
   c9_storage_missing_only_name_location.1 "I need a storage account" "u" (by decide)⟩
